import Mathlib

/-!
Shallow embedding of the core of `alertmanager-alert-sync` and proofs about it.

The Go source is embedded as follows: pure computations become Lean functions,
the Prometheus metric registry becomes an explicit `MetricsState` record that
operations thread through, external HTTP effects (IRM resolve/unsilence, AM
silence creation, upstream fetches) are represented by oracle functions and by
explicit call traces, and the in-process caches become association lists that
the cache operations thread through together with an upstream-fetch counter.
Wall-clock metrics (timestamps, the duration histogram) are omitted: they carry
no information a theorem here depends on.
-/

namespace AlertSync

/-- Go `map[string]string` lookup with the zero-value default `""`
(`alert.Labels["alertname"]`). -/
def lookupD (m : List (String × String)) (k : String) : String :=
  ((m.find? (fun p => p.1 == k)).map Prod.snd).getD ""

/-- Functional model of assignment into a Go `map[string]T` whose lookups
return an `Option` (`val, ok := m[k]`). -/
def mapUpdate {α : Type} (m : String → Option α) (k : String) (v : α) :
    String → Option α :=
  fun x => if x = k then some v else m x

/-! ## Data model (from `internal/grafana/models.go` and the Alertmanager
`models.GettableAlert` shape used by the source) -/

/-- One member alert of an IRM group (`grafana.Alert`); only the fields the
core reads. -/
structure GrafanaAlert where
  fingerprint : String
deriving DecidableEq, Repr

/-- Embeds `grafana.Payload`, restricted to the member-alert list the core reads. -/
structure GPayload where
  alerts : List GrafanaAlert
deriving DecidableEq, Repr

/-- Embeds `grafana.LastAlert`, restricted to its payload. -/
structure GLastAlert where
  payload : GPayload
deriving DecidableEq, Repr

/-- Embeds `grafana.AlertGroup`: the fields read by the reconciler and the exporter.
The nullable timestamps are not read by any embedded operation. -/
structure AlertGroup where
  id : String
  state : String
  acknowledgedBy : String
  resolvedBy : String
  lastAlert : GLastAlert
deriving DecidableEq, Repr

/-- Embeds `models.AlertStatus`: state plus the silence and inhibition lists.
The Go value sits behind a pointer that every embedded code path dereferences
(a nil status would crash the export path), so it is embedded by value and the
source's `alert.Status != nil` guard is always true here. -/
structure AlertStatus where
  state : String
  silencedBy : List String
  inhibitedBy : List String
deriving DecidableEq, Repr

/-- Embeds `models.GettableAlert`: fingerprint, label and annotation maps, status. -/
structure GettableAlert where
  fingerprint : String
  labels : List (String × String)
  annotations : List (String × String)
  status : AlertStatus
deriving DecidableEq, Repr

/-- Does a group's last-alert payload mention fingerprint `f`? -/
def containsFp (g : AlertGroup) (f : String) : Bool :=
  g.lastAlert.payload.alerts.any (fun a => a.fingerprint == f)

/-! ## Fingerprint indexes

`ReconcileAndResolveOptimized` (reconciler.go) builds
`grafanaFingerprints : map[string]string` skipping groups in state
`"resolved"`; `ExportAlertsWithGrafana` (exporter.go) builds
`grafanaMap : map[string]*grafana.AlertGroup` with no state filter.
Both skip empty fingerprints and overwrite on duplicates, so the last
writer in iteration order wins. -/

/-- Inner loop of the reconciliation index: insert every non-empty member
fingerprint of `g`, mapped to `g.id`. -/
def insertGroupFps (m : String → Option String) (g : AlertGroup) :
    String → Option String :=
  g.lastAlert.payload.alerts.foldl
    (fun m a => if a.fingerprint ≠ "" then mapUpdate m a.fingerprint g.id else m) m

/-- The reconciliation index (`grafanaFingerprints` in
`ReconcileAndResolveOptimized`): groups in state `"resolved"` contribute
nothing. -/
def buildReconIndex (groups : List AlertGroup) : String → Option String :=
  groups.foldl
    (fun m g => if g.state ≠ "resolved" then insertGroupFps m g else m)
    (fun _ => none)

/-- The metrics-enrichment index (`grafanaMap` in `ExportAlertsWithGrafana`):
every group contributes, and the stored value is the group itself. -/
def buildGrafanaMap (groups : List AlertGroup) : String → Option AlertGroup :=
  groups.foldl
    (fun m g =>
      g.lastAlert.payload.alerts.foldl
        (fun m a => if a.fingerprint ≠ "" then mapUpdate m a.fingerprint g else m) m)
    (fun _ => none)

/-- Pointwise effect of inserting one group's member fingerprints with a fixed
value `v`: the key is overwritten exactly when it is a non-empty member
fingerprint. -/
theorem foldl_insert_fp_apply {α : Type} (l : List GrafanaAlert)
    (m : String → Option α) (v : α) (f : String) :
    (l.foldl (fun m a => if a.fingerprint ≠ "" then mapUpdate m a.fingerprint v else m) m) f
      = if f ≠ "" ∧ l.any (fun a => a.fingerprint == f) then some v else m f := by
  induction l generalizing m with
  | nil => simp
  | cons a l ih =>
    simp only [List.foldl_cons, List.any_cons, ih]
    by_cases hf : f = ""
    · subst hf
      simp only [ne_eq, not_true_eq_false, false_and, if_false]
      by_cases ha : a.fingerprint = ""
      · simp [ha]
      · simp [ha, mapUpdate, Ne.symm ha]
    · by_cases hmem : l.any (fun a => a.fingerprint == f)
      · simp [hf, hmem]
      · simp only [hf, hmem, ne_eq, not_false_eq_true, true_and, Bool.or_false,
          if_false]
        by_cases ha : a.fingerprint = ""
        · have hne : ¬ (a.fingerprint == f) = true := by
            simp [ha, Ne.symm hf]
          simp [ha, hne, Ne.symm hf]
        · by_cases haf : a.fingerprint = f
          · simp [ha, haf, mapUpdate, hf]
          · have hne : ¬ (a.fingerprint == f) = true := by simp [haf]
            have hne' : ¬ f = a.fingerprint := fun h => haf h.symm
            simp [ha, hne, mapUpdate, hne']

/-- Appending one group to the input of the reconciliation index either
overrides the entry at `f` (when the group is eligible and mentions `f`) or
leaves it unchanged. -/
theorem buildReconIndex_snoc (gs : List AlertGroup) (g : AlertGroup) (f : String) :
    buildReconIndex (gs ++ [g]) f
      = if g.state ≠ "resolved" ∧ f ≠ "" ∧ containsFp g f
        then some g.id else buildReconIndex gs f := by
  unfold buildReconIndex
  rw [List.foldl_append]
  simp only [List.foldl_cons, List.foldl_nil]
  by_cases hs : g.state = "resolved"
  · simp [hs]
  · simp only [hs, ne_eq, not_false_eq_true, if_true, true_and]
    unfold insertGroupFps
    rw [foldl_insert_fp_apply]
    rfl

/-- Appending one group to the input of the metrics index either overrides the
entry at `f` (when the group mentions `f`) or leaves it unchanged. -/
theorem buildGrafanaMap_snoc (gs : List AlertGroup) (g : AlertGroup) (f : String) :
    buildGrafanaMap (gs ++ [g]) f
      = if f ≠ "" ∧ containsFp g f then some g else buildGrafanaMap gs f := by
  unfold buildGrafanaMap
  rw [List.foldl_append]
  simp only [List.foldl_cons, List.foldl_nil]
  rw [foldl_insert_fp_apply]
  rfl

/-! ## Inconsistency detection (reconciler.go, optimized path) -/

/-- Embeds `sync.InconsistentAlert`, restricted to the fields the embedded code
writes and reads. -/
structure InconsistentAlert where
  fingerprint : String
  alertname : String
  grafanaAlertGroupID : String
  reason : String
deriving DecidableEq, Repr

/-- The `silencedAlerts` filter of `ReconcileAndResolveOptimized`: state
`"suppressed"` with at least one silence id. -/
def silencedFiring (alerts : List GettableAlert) : List GettableAlert :=
  alerts.filter (fun a => a.status.state = "suppressed" ∧ a.status.silencedBy ≠ [])

/-- The inconsistency loop of `ReconcileAndResolveOptimized`: a silenced alert
whose fingerprint is in the reconciliation index yields one inconsistency. -/
def findInconsistencies (silenced : List GettableAlert)
    (idx : String → Option String) : List InconsistentAlert :=
  silenced.filterMap (fun a =>
    match idx a.fingerprint with
    | some gid =>
        some ⟨a.fingerprint, lookupD a.labels "alertname", gid,
          "Alert is silenced in Alertmanager but still firing in Grafana IRM"⟩
    | none => none)

/-- If every group mentioning `f` is resolved, the reconciliation index has no
entry at `f`. -/
theorem buildReconIndex_resolved_only (groups : List AlertGroup) (f : String)
    (h : ∀ g ∈ groups, containsFp g f = true → g.state = "resolved") :
    buildReconIndex groups f = none := by
  induction groups using List.reverseRecOn with
  | nil => rfl
  | append_singleton gs g ih =>
    rw [buildReconIndex_snoc]
    by_cases hc : containsFp g f
    · have := h g (by simp) hc
      simp only [this, ne_eq, not_true_eq_false, false_and, if_false]
      exact ih (fun g' hg' => h g' (by simp [hg']))
    · rw [if_neg (by simp [hc])]
      exact ih (fun g' hg' => h g' (by simp [hg']))

/-- Last-eligible-group-wins for the reconciliation index. -/
theorem buildReconIndex_last_wins (l₁ : List AlertGroup) (g : AlertGroup)
    (l₂ : List AlertGroup) (f : String) (hf : f ≠ "")
    (hs : g.state ≠ "resolved") (hc : containsFp g f = true)
    (hlast : ∀ g' ∈ l₂, g'.state ≠ "resolved" → containsFp g' f = false) :
    buildReconIndex (l₁ ++ g :: l₂) f = some g.id := by
  induction l₂ using List.reverseRecOn with
  | nil =>
    have : l₁ ++ [g] = l₁ ++ g :: [] := rfl
    rw [← this, buildReconIndex_snoc]
    simp [hs, hf, hc]
  | append_singleton l₂ g' ih =>
    have hsplit : l₁ ++ g :: (l₂ ++ [g']) = (l₁ ++ g :: l₂) ++ [g'] := by
      simp
    rw [hsplit, buildReconIndex_snoc]
    have hg' : g'.state ≠ "resolved" → containsFp g' f = false :=
      hlast g' (by simp)
    by_cases hres : g'.state = "resolved"
    · simp only [hres, ne_eq, not_true_eq_false, false_and, if_false]
      exact ih (fun x hx => hlast x (by simp [hx]))
    · have := hg' hres
      simp only [this, Bool.false_eq_true, and_false, if_false]
      exact ih (fun x hx => hlast x (by simp [hx]))

/-- Last-group-wins for the metrics-enrichment index (no state filter). -/
theorem buildGrafanaMap_last_wins (l₁ : List AlertGroup) (g : AlertGroup)
    (l₂ : List AlertGroup) (f : String) (hf : f ≠ "")
    (hc : containsFp g f = true)
    (hlast : ∀ g' ∈ l₂, containsFp g' f = false) :
    buildGrafanaMap (l₁ ++ g :: l₂) f = some g := by
  induction l₂ using List.reverseRecOn with
  | nil =>
    have : l₁ ++ [g] = l₁ ++ g :: [] := rfl
    rw [← this, buildGrafanaMap_snoc]
    simp [hf, hc]
  | append_singleton l₂ g' ih =>
    have hsplit : l₁ ++ g :: (l₂ ++ [g']) = (l₁ ++ g :: l₂) ++ [g'] := by
      simp
    rw [hsplit, buildGrafanaMap_snoc]
    have := hlast g' (by simp)
    simp only [this, Bool.false_eq_true, and_false, if_false]
    exact ih (fun x hx => hlast x (by simp [hx]))

/-- The metrics-enrichment index is defined at every non-empty fingerprint
mentioned by any group, whatever that group's state. -/
theorem buildGrafanaMap_total (groups : List AlertGroup) (f : String)
    (hf : f ≠ "") (g : AlertGroup) (hg : g ∈ groups)
    (hc : containsFp g f = true) :
    (buildGrafanaMap groups f).isSome := by
  induction groups using List.reverseRecOn with
  | nil => cases hg
  | append_singleton gs g' ih =>
    rw [buildGrafanaMap_snoc]
    by_cases hc' : containsFp g' f
    · simp [hf, hc']
    · rw [if_neg (by simp [hc'])]
      rcases List.mem_append.mp hg with hmem | hmem
      · exact ih hmem
      · simp only [List.mem_singleton] at hmem
        subst hmem
        exact absurd hc hc'

/-- No inconsistency is generated at a fingerprint absent from the index. -/
theorem findInconsistencies_fingerprint_absent (silenced : List GettableAlert)
    (idx : String → Option String) (f : String) (hf : idx f = none) :
    ∀ inc ∈ findInconsistencies silenced idx, inc.fingerprint ≠ f := by
  intro inc hmem
  unfold findInconsistencies at hmem
  rcases List.mem_filterMap.mp hmem with ⟨a, _, heq⟩
  cases hidx : idx a.fingerprint with
  | none => rw [hidx] at heq; cases heq
  | some gid =>
    rw [hidx] at heq
    cases heq
    intro hcontra
    simp only at hcontra
    rw [hcontra, hf] at hidx
    cases hidx

/-- Claim C1: the reconciliation index excludes fingerprints whose only
containing groups are resolved (so such a silenced alert yields no
inconsistency, hence no `ResolveAlertGroup` call), the metrics-enrichment
index maps fingerprints from groups of any state, and in both indexes the
last eligible group in input order wins on duplicates. -/
theorem recon_index_asymmetry (groups : List AlertGroup) (f : String) :
    ((∀ g ∈ groups, containsFp g f = true → g.state = "resolved") →
        buildReconIndex groups f = none)
    ∧ ((∀ g ∈ groups, containsFp g f = true → g.state = "resolved") →
        ∀ alerts : List GettableAlert,
          ∀ inc ∈ findInconsistencies (silencedFiring alerts) (buildReconIndex groups),
            inc.fingerprint ≠ f)
    ∧ (f ≠ "" → ∀ g ∈ groups, containsFp g f = true →
        (buildGrafanaMap groups f).isSome)
    ∧ (∀ l₁ g l₂, groups = l₁ ++ g :: l₂ → f ≠ "" → g.state ≠ "resolved" →
        containsFp g f = true →
        (∀ g' ∈ l₂, g'.state ≠ "resolved" → containsFp g' f = false) →
        buildReconIndex groups f = some g.id)
    ∧ (∀ l₁ g l₂, groups = l₁ ++ g :: l₂ → f ≠ "" → containsFp g f = true →
        (∀ g' ∈ l₂, containsFp g' f = false) →
        buildGrafanaMap groups f = some g) := by
  refine ⟨buildReconIndex_resolved_only groups f, ?_, ?_, ?_, ?_⟩
  · intro h alerts
    exact findInconsistencies_fingerprint_absent _ _ f
      (buildReconIndex_resolved_only groups f h)
  · intro hf g hg hc
    exact buildGrafanaMap_total groups f hf g hg hc
  · intro l₁ g l₂ hsplit hf hs hc hlast
    subst hsplit
    exact buildReconIndex_last_wins l₁ g l₂ f hf hs hc hlast
  · intro l₁ g l₂ hsplit hf hc hlast
    subst hsplit
    exact buildGrafanaMap_last_wins l₁ g l₂ f hf hc hlast

/-- A resolved IRM group mentioning fingerprint `"f1"`. -/
def gResolvedW : AlertGroup := ⟨"g1", "resolved", "", "", ⟨⟨[⟨"f1"⟩]⟩⟩⟩

/-- A firing IRM group mentioning fingerprint `"f1"`. -/
def gFiringAW : AlertGroup := ⟨"gA", "firing", "", "", ⟨⟨[⟨"f1"⟩]⟩⟩⟩

/-- An acknowledged IRM group mentioning fingerprint `"f1"`. -/
def gFiringBW : AlertGroup := ⟨"gB", "acknowledged", "", "", ⟨⟨[⟨"f1"⟩]⟩⟩⟩

/-- Witness for `recon_index_asymmetry` at concrete snapshots. -/
theorem recon_index_asymmetry_witness :
    buildReconIndex [gResolvedW] "f1" = none
    ∧ buildReconIndex [gFiringAW, gFiringBW] "f1" = some gFiringBW.id
    ∧ buildGrafanaMap [gFiringAW, gResolvedW] "f1" = some gResolvedW :=
  ⟨(recon_index_asymmetry [gResolvedW] "f1").1 (by decide),
   (recon_index_asymmetry [gFiringAW, gFiringBW] "f1").2.2.2.1
     [gFiringAW] gFiringBW [] rfl (by decide) (by decide) (by decide)
     (by simp),
   (recon_index_asymmetry [gFiringAW, gResolvedW] "f1").2.2.2.2
     [gFiringAW] gResolvedW [] rfl (by decide) (by decide) (by simp)⟩

/-! ## Metrics exporter (internal/metrics/exporter.go, current version)

The Prometheus registry is embedded as an explicit `MetricsState` record;
wall-clock gauges and the duration histogram are omitted. The exporter's
configuration (`alertLabels`, `alertAnnotations`) is the `Exporter` record.
The two HTTP clients appear in the export path only through their cached
string lookups, embedded as oracle functions. -/

/-- The numeric metric registry plus the `alert_state` gauge vector. Each
`alert_state` series is its label tuple in schema order with its value. -/
structure MetricsState where
  reconciliationTotal : Nat
  reconciliationFailuresTotal : Nat
  inconsistenciesFound : Nat
  inconsistenciesResolved : Nat
  inconsistenciesFailedResolve : Nat
  lastReconciliationSuccess : Nat
  alertExportTotal : Nat
  alertExportFailuresTotal : Nat
  alertState : List ((List (String × String)) × Nat)
deriving DecidableEq, Repr

/-- Exporter configuration: the projected label and annotation names
(`parseEnvList` results held in the `Exporter` struct). -/
structure Exporter where
  alertLabels : List String
  alertAnnotations : List String
deriving DecidableEq, Repr

/-- Embeds `defaultLabels` of `NewExporter`. -/
def defaultLabels : List String :=
  ["alertname", "fingerprint", "suppressed", "acknowledged_by", "resolved_by",
   "silenced_by", "inhibited_by"]

/-- Embeds `allLabels` of `NewExporter`: defaults, then configured labels, then
configured annotations. -/
def allLabels (e : Exporter) : List String :=
  defaultLabels ++ e.alertLabels ++ e.alertAnnotations

/-- Embeds `alertmanager.Client` as the export path sees it: the cached
`GetSilenceAuthor` lookup. -/
structure AMClientM where
  getSilenceAuthor : String → String

/-- Embeds `grafana.Client` as the export path sees it: the cached `GetUserEmail`
lookup. -/
structure GrafanaClientM where
  getUserEmail : String → String

/-- Assignment into the Go `prometheus.Labels` map (`map[string]string`). -/
def strMapSet (m : String → String) (k v : String) : String → String :=
  fun x => if x = k then v else m x

/-- The `metricLabels` map built by `exportAlert`: the seven default entries,
then one entry per configured label name, then one per configured annotation
name (later assignments shadow earlier ones, as in a Go map). -/
def exportMetricLabels (e : Exporter) (alert : GettableAlert)
    (grafanaGroup : Option AlertGroup) (grafanaClient : Option GrafanaClientM)
    (amClient : Option AMClientM) : String → String :=
  let suppressedVal := if alert.status.silencedBy ≠ [] then "true" else "false"
  let silencedByVal :=
    if alert.status.silencedBy ≠ [] then
      match amClient with
      | some c => c.getSilenceAuthor (alert.status.silencedBy.headD "")
      | none => ""
    else ""
  let inhibitedByVal := alert.status.inhibitedBy.headD ""
  let acknowledgedByVal :=
    match grafanaGroup, grafanaClient with
    | some g, some c =>
        if g.acknowledgedBy ≠ "" then c.getUserEmail g.acknowledgedBy else ""
    | _, _ => ""
  let resolvedByVal :=
    match grafanaGroup, grafanaClient with
    | some g, some c =>
        if g.resolvedBy ≠ "" then c.getUserEmail g.resolvedBy else ""
    | _, _ => ""
  let m := strMapSet (fun _ => "") "alertname" (lookupD alert.labels "alertname")
  let m := strMapSet m "fingerprint" alert.fingerprint
  let m := strMapSet m "suppressed" suppressedVal
  let m := strMapSet m "acknowledged_by" acknowledgedByVal
  let m := strMapSet m "resolved_by" resolvedByVal
  let m := strMapSet m "silenced_by" silencedByVal
  let m := strMapSet m "inhibited_by" inhibitedByVal
  let m := e.alertLabels.foldl (fun m l => strMapSet m l (lookupD alert.labels l)) m
  e.alertAnnotations.foldl (fun m an => strMapSet m an (lookupD alert.annotations an)) m

/-- The published label tuple of an alert, read off in schema order
(`alertStateGauge.With(metricLabels)` matches labels by name against the
schema fixed at initialization). -/
def exportTuple (e : Exporter) (alert : GettableAlert)
    (grafanaGroup : Option AlertGroup) (grafanaClient : Option GrafanaClientM)
    (amClient : Option AMClientM) : List (String × String) :=
  (allLabels e).map
    (fun n => (n, exportMetricLabels e alert grafanaGroup grafanaClient amClient n))

/-- Embeds `alertStateNumber`: `1` iff the alert state is `"active"`, else `0`. -/
def alertStateValue (alert : GettableAlert) : Nat :=
  if alert.status.state = "active" then 1 else 0

/-- Embeds `GaugeVec.With(labels).Set(v)`: replace the series with this label tuple,
or add it. -/
def gaugeVecSet (series : List ((List (String × String)) × Nat))
    (t : List (String × String)) (v : Nat) :
    List ((List (String × String)) × Nat) :=
  if series.any (fun p => decide (p.1 = t)) then
    series.map (fun p => if p.1 = t then (t, v) else p)
  else series ++ [(t, v)]

/-- Embeds `exportAlert` (exporter.go): publish one alert's series; its only return
is `nil`. -/
def exportAlert (e : Exporter) (alert : GettableAlert)
    (grafanaGroup : Option AlertGroup) (grafanaClient : Option GrafanaClientM)
    (amClient : Option AMClientM) (s : MetricsState) :
    MetricsState × Option String :=
  let t := exportTuple e alert grafanaGroup grafanaClient amClient
  ({s with alertState := gaugeVecSet s.alertState t (alertStateValue alert)}, none)

/-- One iteration of the export loop of `ExportAlertsWithGrafana`: look the
alert's fingerprint up in the metrics index and export; a per-alert error is
logged and dropped. -/
def exportStep (e : Exporter) (gmap : String → Option AlertGroup)
    (gc : GrafanaClientM) (ac : AMClientM) (s : MetricsState)
    (alert : GettableAlert) : MetricsState :=
  (exportAlert e alert (gmap alert.fingerprint) (some gc) (some ac) s).1

/-- Embeds `ExportAlertsWithGrafana`: bump the export counter, reset the gauge
vector, rebuild it from the snapshot, and return `nil`. -/
def ExportAlertsWithGrafana (e : Exporter) (alerts : List GettableAlert)
    (groups : List AlertGroup) (gc : GrafanaClientM) (ac : AMClientM)
    (s : MetricsState) : MetricsState × Option String :=
  let s := {s with alertExportTotal := s.alertExportTotal + 1}
  let s := {s with alertState := []}
  let gmap := buildGrafanaMap groups
  (alerts.foldl (exportStep e gmap gc ac) s, none)

/-! ## Operational counter updates (exporter.go) -/

/-- Embeds `RecordReconciliationStart` (the wall-clock gauge and the duration
histogram it also touches are omitted). -/
def RecordReconciliationStart (s : MetricsState) : MetricsState :=
  {s with reconciliationTotal := s.reconciliationTotal + 1}

/-- Embeds `RecordReconciliationSuccess`: sets the success gauge and the found gauge,
and adds the resolved count to the resolved counter. -/
def RecordReconciliationSuccess (found resolved : Nat) (s : MetricsState) :
    MetricsState :=
  {s with lastReconciliationSuccess := 1,
          inconsistenciesFound := found,
          inconsistenciesResolved := s.inconsistenciesResolved + resolved}

/-- Embeds `RecordReconciliationFailure`. -/
def RecordReconciliationFailure (s : MetricsState) : MetricsState :=
  {s with reconciliationFailuresTotal := s.reconciliationFailuresTotal + 1,
          lastReconciliationSuccess := 0}

/-- Embeds `RecordInconsistencyResolved`. -/
def RecordInconsistencyResolved (s : MetricsState) : MetricsState :=
  {s with inconsistenciesResolved := s.inconsistenciesResolved + 1}

/-- Embeds `RecordInconsistencyFailedResolve`. -/
def RecordInconsistencyFailedResolve (s : MetricsState) : MetricsState :=
  {s with inconsistenciesFailedResolve := s.inconsistenciesFailedResolve + 1}

/-- Embeds `RecordAlertExportFailure`. -/
def RecordAlertExportFailure (s : MetricsState) : MetricsState :=
  {s with alertExportFailuresTotal := s.alertExportFailuresTotal + 1}

/-! ## The optimized reconciliation cycle (reconciler.go) -/

/-- One iteration of the resolve loop: `ResolveAlertGroup` is attempted for
every inconsistency (its group id is appended to the call trace), a success
bumps the resolved counter and the local count, a failure bumps the
failed-resolve counter and the loop continues. -/
def resolveStep (resolveOk : String → Bool)
    (acc : MetricsState × Nat × List String) (inc : InconsistentAlert) :
    MetricsState × Nat × List String :=
  if resolveOk inc.grafanaAlertGroupID then
    (RecordInconsistencyResolved acc.1, acc.2.1 + 1,
     acc.2.2 ++ [inc.grafanaAlertGroupID])
  else
    (RecordInconsistencyFailedResolve acc.1, acc.2.1,
     acc.2.2 ++ [inc.grafanaAlertGroupID])

/-- The resolve loop of `ReconcileAndResolveOptimized`: state, `resolvedCount`,
and the trace of `ResolveAlertGroup` calls. -/
def resolveLoop (resolveOk : String → Bool) (incs : List InconsistentAlert)
    (s : MetricsState) : MetricsState × Nat × List String :=
  incs.foldl (resolveStep resolveOk) (s, 0, [])

/-- Embeds `ReconcileAndResolveOptimized`: the two fetch results arrive as `Except`
values (the two fetch goroutines have no metric effects), the export and
resolve sub-operations touch disjoint parts of the metric state and are run
here in sequence, and the join records success or failure exactly as the
source does. Returns the final metric state, the cycle's return value, and
the `ResolveAlertGroup` call trace. -/
def ReconcileAndResolveOptimized (e : Exporter) (gc : GrafanaClientM)
    (ac : AMClientM) (resolveOk : String → Bool)
    (amResult : Except String (List GettableAlert))
    (irmResult : Except String (List AlertGroup)) (s : MetricsState) :
    MetricsState × Except String Unit × List String :=
  let s0 := RecordReconciliationStart s
  match amResult with
  | .error msg => (RecordReconciliationFailure s0, .error msg, [])
  | .ok alerts =>
    match irmResult with
    | .error msg => (RecordReconciliationFailure s0, .error msg, [])
    | .ok groups =>
      let ex := ExportAlertsWithGrafana e alerts groups gc ac s0
      let s1 := if ex.2.isSome then RecordAlertExportFailure ex.1 else ex.1
      let incs := findInconsistencies (silencedFiring alerts) (buildReconIndex groups)
      let rl := resolveLoop resolveOk incs s1
      match ex.2 with
      | none => (RecordReconciliationSuccess incs.length rl.2.1 rl.1, .ok (), rl.2.2)
      | some msg => (RecordReconciliationFailure rl.1, .error msg, rl.2.2)

/-- The export loop never touches the reconciliation-failure counter. -/
theorem exportStep_foldl_failures (e : Exporter) (gmap : String → Option AlertGroup)
    (gc : GrafanaClientM) (ac : AMClientM) (alerts : List GettableAlert)
    (s : MetricsState) :
    (alerts.foldl (exportStep e gmap gc ac) s).reconciliationFailuresTotal
      = s.reconciliationFailuresTotal := by
  induction alerts generalizing s with
  | nil => rfl
  | cons a l ih => rw [List.foldl_cons, ih]; rfl

/-- The resolve loop never touches the reconciliation-failure counter. -/
theorem resolveStep_foldl_failures (resolveOk : String → Bool)
    (incs : List InconsistentAlert) (acc : MetricsState × Nat × List String) :
    (incs.foldl (resolveStep resolveOk) acc).1.reconciliationFailuresTotal
      = acc.1.reconciliationFailuresTotal := by
  induction incs generalizing acc with
  | nil => rfl
  | cons i l ih =>
    rw [List.foldl_cons, ih]
    unfold resolveStep
    by_cases h : resolveOk i.grafanaAlertGroupID <;>
      simp [h, RecordInconsistencyResolved, RecordInconsistencyFailedResolve]

/-- Claim C7: a cycle whose AM fetch or IRM fetch fails records exactly one
reconciliation failure (failure counter `+1`, last-success gauge `0`), makes
no `ResolveAlertGroup` call, runs no publish step, and leaves every other
metric — in particular the `alert_state` vector — exactly as it was. -/
theorem fetch_failure_frame (e : Exporter) (gc : GrafanaClientM) (ac : AMClientM)
    (resolveOk : String → Bool) (s : MetricsState) (msg : String)
    (irmResult : Except String (List AlertGroup))
    (alerts : List GettableAlert) :
    ReconcileAndResolveOptimized e gc ac resolveOk (.error msg) irmResult s
      = ({s with reconciliationTotal := s.reconciliationTotal + 1,
                 reconciliationFailuresTotal := s.reconciliationFailuresTotal + 1,
                 lastReconciliationSuccess := 0},
         .error msg, ([] : List String))
    ∧ ReconcileAndResolveOptimized e gc ac resolveOk (.ok alerts) (.error msg) s
      = ({s with reconciliationTotal := s.reconciliationTotal + 1,
                 reconciliationFailuresTotal := s.reconciliationFailuresTotal + 1,
                 lastReconciliationSuccess := 0},
         .error msg, ([] : List String)) :=
  ⟨rfl, rfl⟩

/-- Claim C10: the publish step is infallible — `exportAlert` and
`ExportAlertsWithGrafana` only ever return `nil` — so a cycle whose two
fetches succeed never takes the publish-failure branch: it returns `nil`,
records success, and leaves the failure counter unchanged. -/
theorem publish_infallible_cycle_success (e : Exporter) (alert : GettableAlert)
    (gg : Option AlertGroup) (gc : GrafanaClientM) (ac : AMClientM)
    (resolveOk : String → Bool) (alerts : List GettableAlert)
    (groups : List AlertGroup) (s : MetricsState) :
    (exportAlert e alert gg (some gc) (some ac) s).2 = none
    ∧ (ExportAlertsWithGrafana e alerts groups gc ac s).2 = none
    ∧ (ReconcileAndResolveOptimized e gc ac resolveOk
        (.ok alerts) (.ok groups) s).2.1 = .ok ()
    ∧ (ReconcileAndResolveOptimized e gc ac resolveOk
        (.ok alerts) (.ok groups) s).1.lastReconciliationSuccess = 1
    ∧ (ReconcileAndResolveOptimized e gc ac resolveOk
        (.ok alerts) (.ok groups) s).1.reconciliationFailuresTotal
      = s.reconciliationFailuresTotal := by
  refine ⟨rfl, rfl, rfl, rfl, ?_⟩
  simp only [ReconcileAndResolveOptimized, ExportAlertsWithGrafana, resolveLoop,
    Option.isSome_none, Bool.false_eq_true, if_false, RecordReconciliationSuccess]
  rw [resolveStep_foldl_failures, exportStep_foldl_failures]
  rfl

/-- A suppressed AM alert silenced by `"s1"`, fingerprint `"f1"`. -/
def amAlertW : GettableAlert :=
  ⟨"f1", [("alertname", "X")], [], ⟨"suppressed", ["s1"], []⟩⟩

/-- A firing IRM group `"g1"` whose payload mentions `"f1"`. -/
def irmGroupW : AlertGroup := ⟨"g1", "firing", "", "", ⟨⟨[⟨"f1"⟩]⟩⟩⟩

/-- An exporter with no configured projections. -/
def exporterW : Exporter := ⟨[], []⟩

/-- An IRM client model whose user lookups all yield the empty string. -/
def gcW : GrafanaClientM := ⟨fun _ => ""⟩

/-- An AM client model whose silence-author lookups all yield the empty
string. -/
def acW : AMClientM := ⟨fun _ => ""⟩

/-- Claim C2 (code bug): in the concrete one-inconsistency scenario whose
single `ResolveAlertGroup` call succeeds, the cycle makes exactly that one
call but the resolved counter grows by 2, not 1: the loop increments it once
per success and `RecordReconciliationSuccess` then adds the resolved count a
second time. -/
theorem resolved_counter_double_counted (s : MetricsState) :
    (ReconcileAndResolveOptimized exporterW gcW acW (fun _ => true)
        (.ok [amAlertW]) (.ok [irmGroupW]) s).2.2 = ["g1"]
    ∧ (ReconcileAndResolveOptimized exporterW gcW acW (fun _ => true)
        (.ok [amAlertW]) (.ok [irmGroupW]) s).1.inconsistenciesResolved
      = s.inconsistenciesResolved + 2 :=
  ⟨rfl, rfl⟩

/-- Assigning map entries for names a key is not among leaves the key's value
unchanged. -/
theorem foldl_strMapSet_lookup_not_mem (l : List String)
    (entries : List (String × String)) (m : String → String) (k : String)
    (hk : k ∉ l) :
    (l.foldl (fun m x => strMapSet m x (lookupD entries x)) m) k = m k := by
  induction l generalizing m with
  | nil => rfl
  | cons a l ih =>
    rw [List.foldl_cons]
    have hka : ¬ k = a := fun h => hk (h ▸ List.mem_cons_self a l)
    rw [ih _ (fun h => hk (List.mem_cons_of_mem a h))]
    simp [strMapSet, hka]

/-- The published value under `acknowledged_by` when the alert has a matching
group and that name is not shadowed by a configured projection. -/
theorem exportMetricLabels_acknowledged_by (e : Exporter) (alert : GettableAlert)
    (g : AlertGroup) (gc : GrafanaClientM) (ac : AMClientM)
    (h1 : "acknowledged_by" ∉ e.alertLabels)
    (h2 : "acknowledged_by" ∉ e.alertAnnotations) :
    exportMetricLabels e alert (some g) (some gc) (some ac) "acknowledged_by"
      = (if g.acknowledgedBy ≠ "" then gc.getUserEmail g.acknowledgedBy else "") := by
  simp only [exportMetricLabels]
  rw [foldl_strMapSet_lookup_not_mem _ _ _ _ h2,
    foldl_strMapSet_lookup_not_mem _ _ _ _ h1]
  simp [strMapSet]

/-- The published value under `resolved_by` when the alert has a matching
group and that name is not shadowed by a configured projection. -/
theorem exportMetricLabels_resolved_by (e : Exporter) (alert : GettableAlert)
    (g : AlertGroup) (gc : GrafanaClientM) (ac : AMClientM)
    (h1 : "resolved_by" ∉ e.alertLabels)
    (h2 : "resolved_by" ∉ e.alertAnnotations) :
    exportMetricLabels e alert (some g) (some gc) (some ac) "resolved_by"
      = (if g.resolvedBy ≠ "" then gc.getUserEmail g.resolvedBy else "") := by
  simp only [exportMetricLabels]
  rw [foldl_strMapSet_lookup_not_mem _ _ _ _ h2,
    foldl_strMapSet_lookup_not_mem _ _ _ _ h1]
  simp [strMapSet]

/-- Claim C3 counterexample: the default label set of the `alert_state` gauge
has no `alert_group_id` and no timestamp labels, so with no configured
projections the schema does not contain them, contradicting the claimed
default set. -/
theorem alert_state_schema_counterexample :
    ¬ ("alert_group_id" ∈ allLabels exporterW)
    ∧ ¬ ("acknowledged_at" ∈ allLabels exporterW)
    ∧ ¬ ("created_at" ∈ allLabels exporterW)
    ∧ ¬ ("resolved_at" ∈ allLabels exporterW) := by
  decide

/-- Claim C3 (amended): the schema fixed at initialization is exactly the
seven default labels (`alertname`, `fingerprint`, `suppressed`,
`acknowledged_by`, `resolved_by`, `silenced_by`, `inhibited_by`) followed by
the configured export label names and annotation names; every published tuple
carries exactly the schema's names; a matching IRM group contributes only the
`acknowledged_by` and `resolved_by` emails resolved through the cached user
lookup (empty when the ids are absent) — no group id and no timestamps are
published. -/
theorem alert_state_schema_amended (e : Exporter) (alert : GettableAlert)
    (g : AlertGroup) (gc : GrafanaClientM) (ac : AMClientM)
    (h1 : "acknowledged_by" ∉ e.alertLabels)
    (h2 : "acknowledged_by" ∉ e.alertAnnotations)
    (h3 : "resolved_by" ∉ e.alertLabels)
    (h4 : "resolved_by" ∉ e.alertAnnotations)
    (h5 : "alert_group_id" ∉ e.alertLabels)
    (h6 : "alert_group_id" ∉ e.alertAnnotations) :
    allLabels e = defaultLabels ++ e.alertLabels ++ e.alertAnnotations
    ∧ (exportTuple e alert (some g) (some gc) (some ac)).map Prod.fst = allLabels e
    ∧ "alert_group_id" ∉ (exportTuple e alert (some g) (some gc) (some ac)).map Prod.fst
    ∧ exportMetricLabels e alert (some g) (some gc) (some ac) "acknowledged_by"
        = (if g.acknowledgedBy ≠ "" then gc.getUserEmail g.acknowledgedBy else "")
    ∧ exportMetricLabels e alert (some g) (some gc) (some ac) "resolved_by"
        = (if g.resolvedBy ≠ "" then gc.getUserEmail g.resolvedBy else "") := by
  have hkeys : (exportTuple e alert (some g) (some gc) (some ac)).map Prod.fst
      = allLabels e := by
    simp only [exportTuple, List.map_map]
    exact List.map_id _
  refine ⟨rfl, hkeys, ?_,
    exportMetricLabels_acknowledged_by e alert g gc ac h1 h2,
    exportMetricLabels_resolved_by e alert g gc ac h3 h4⟩
  rw [hkeys]
  simp [allLabels, defaultLabels, h5, h6]

/-- An IRM group with both an acknowledger and a resolver id. -/
def gAckW : AlertGroup := ⟨"g2", "acknowledged", "u1", "u2", ⟨⟨[]⟩⟩⟩

/-- A user-email lookup distinguishing the two ids of `gAckW`. -/
def gcAckW : GrafanaClientM :=
  ⟨fun id => if id = "u1" then "ack@example.com" else "res@example.com"⟩

/-- Witness for `alert_state_schema_amended` at a concrete exporter
configuration, alert, and group. -/
theorem alert_state_schema_amended_witness :
    (exportTuple ⟨["team"], ["summary"]⟩ amAlertW (some gAckW) (some gcAckW)
        (some acW)).map Prod.fst = allLabels ⟨["team"], ["summary"]⟩
    ∧ exportMetricLabels ⟨["team"], ["summary"]⟩ amAlertW (some gAckW)
        (some gcAckW) (some acW) "acknowledged_by"
      = (if gAckW.acknowledgedBy ≠ "" then gcAckW.getUserEmail gAckW.acknowledgedBy
         else "") :=
  ⟨(alert_state_schema_amended ⟨["team"], ["summary"]⟩ amAlertW gAckW gcAckW acW
      (by decide) (by decide) (by decide) (by decide) (by decide) (by decide)).2.1,
   (alert_state_schema_amended ⟨["team"], ["summary"]⟩ amAlertW gAckW gcAckW acW
      (by decide) (by decide) (by decide) (by decide) (by decide) (by decide)).2.2.2.1⟩

/-! ## Silence webhook handler (internal/server/handlers.go, webhook part)

The HTTP request is embedded with its method, the outcome of
`r.BasicAuth()`, and the outcome of decoding its JSON body; the external
effects (`UnsilenceAlertGroup`, `CreateSilence`, `time.Parse`, `time.Now`)
are oracle functions, and the issued upstream calls are returned as a
trace. -/

/-- One member alert of the webhook body (`last_alert.payload.alerts[*]`):
the fields the handler reads. -/
structure WhAlert where
  labels : List (String × String)
  fingerprint : String
deriving DecidableEq, Repr

/-- Embeds `event` object of the webhook body. -/
structure WhEvent where
  eventType : String
  untilStr : String
deriving DecidableEq, Repr

/-- Embeds `user` object of the webhook body. -/
structure WhUser where
  email : String
deriving DecidableEq, Repr

/-- Embeds `alert_group.permalinks` of the webhook body. -/
structure WhPermalinks where
  web : String
deriving DecidableEq, Repr

/-- Embeds `alert_group` object of the webhook body, restricted to what the handler
reads. -/
structure WhAlertGroup where
  id : String
  title : String
  permalinks : WhPermalinks
  alerts : List WhAlert
deriving DecidableEq, Repr

/-- Embeds `server.WebhookEvent`, restricted to what the handler reads. -/
structure WebhookEvent where
  event : WhEvent
  user : WhUser
  alertGroup : WhAlertGroup
deriving DecidableEq, Repr

/-- Embeds `server.WebhookHandler` configuration. -/
structure WebhookHandlerCfg where
  username : String
  password : String
  allowlist : List String
deriving DecidableEq, Repr

/-- An inbound HTTP request as the handler observes it: method, the result of
`r.BasicAuth()`, and the result of decoding the JSON body. -/
structure Request where
  method : String
  auth : Option (String × String)
  body : Option WebhookEvent
deriving DecidableEq, Repr

/-- An Alertmanager silence matcher (`models.Matcher`). -/
structure Matcher where
  name : String
  value : String
  isEqual : Bool
  isRegex : Bool
deriving DecidableEq, Repr

/-- The upstream effects the webhook handler can issue. -/
inductive UpstreamCall where
  | unsilenceAlertGroup (id : String)
  | createSilence (matchers : List Matcher) (startsAt endsAt createdBy comment : String)
deriving DecidableEq, Repr

/-- Body of an HTTP response: `http.Error` text or an encoded JSON object. -/
inductive RespBody where
  | text (s : String)
  | json (fields : List (String × String))
deriving DecidableEq, Repr

/-- An HTTP response: status code, optional `WWW-Authenticate` header,
body. -/
structure Response where
  code : Nat
  wwwAuthenticate : Option String
  body : RespBody
deriving DecidableEq, Repr

/-- Oracles for the handler's external effects: RFC-3339 parsing of `until`
(`some` is the parsed instant), the current time, and the outcomes of the
IRM unsilence call and of each `CreateSilence` call by position. -/
structure WhOracles where
  parse : String → Option String
  now : String
  unsilence : String → Except Unit Unit
  create : Nat → Except Unit String

/-- The comment `createSilenceForAlert` attaches to each silence. -/
def silenceComment (event : WebhookEvent) : String :=
  "Automated silence for Grafana IRM Alert Group: " ++ event.alertGroup.title
    ++ " - " ++ event.alertGroup.permalinks.web
    ++ " (ID: " ++ event.alertGroup.id ++ ")"

/-- The `CreateSilence` call `createSilenceForAlert` issues for one member
alert: one exact non-regex matcher per label, `starts_at` now, `ends_at` the
parsed until, `created_by` the event's user email. -/
def createSilenceCall (o : WhOracles) (event : WebhookEvent) (untilTime : String)
    (a : WhAlert) : UpstreamCall :=
  .createSilence (a.labels.map (fun p => ⟨p.1, p.2, true, false⟩))
    o.now untilTime event.user.email (silenceComment event)

/-- Is an `Except` a success? -/
def exceptOk {ε α : Type} : Except ε α → Bool
  | .ok _ => true
  | .error _ => false

/-- The per-alert silence-creation loop of `HandleWebhook`: every alert gets
one `CreateSilence` attempt, failures are skipped, successes are counted. -/
def silenceLoop (o : WhOracles) (event : WebhookEvent) (untilTime : String)
    (l : List (Nat × WhAlert)) : Nat × List UpstreamCall :=
  l.foldl
    (fun acc ia =>
      if exceptOk (o.create ia.1) then
        (acc.1 + 1, acc.2 ++ [createSilenceCall o event untilTime ia.2])
      else
        (acc.1, acc.2 ++ [createSilenceCall o event untilTime ia.2]))
    (0, [])

/-- Embeds `HandleWebhook`: method check, body decode, event-type filtering, then
the allow-list policy branch. -/
def HandleWebhook (h : WebhookHandlerCfg) (o : WhOracles) (r : Request) :
    Response × List UpstreamCall :=
  if r.method ≠ "POST" then
    (⟨405, none, .text "Method not allowed"⟩, [])
  else
    match r.body with
    | none => (⟨400, none, .text "Invalid payload"⟩, [])
    | some event =>
      if event.event.eventType = "" then
        (⟨200, none, .json [("status", "ignored"), ("reason", "no event type")]⟩, [])
      else if event.event.eventType ≠ "silence" then
        (⟨200, none, .json [("status", "ignored"), ("reason", "not a silence event")]⟩, [])
      else if ¬ h.allowlist.contains event.user.email then
        match o.unsilence event.alertGroup.id with
        | .error _ =>
            (⟨500, none, .text "Failed to unsilence alert"⟩,
             [.unsilenceAlertGroup event.alertGroup.id])
        | .ok _ =>
            (⟨200, none,
              .json [("status", "unsilenced"),
                ("alert_group_id", event.alertGroup.id)]⟩,
             [.unsilenceAlertGroup event.alertGroup.id])
      else if event.event.untilStr = "" then
        (⟨200, none, .json [("status", "ignored"), ("reason", "no until time")]⟩, [])
      else
        match o.parse event.event.untilStr with
        | none => (⟨400, none, .text "Invalid until time"⟩, [])
        | some untilTime =>
          let res := silenceLoop o event untilTime event.alertGroup.alerts.enum
          if res.1 = 0 then
            (⟨500, none, .text "Failed to create any silences"⟩, res.2)
          else
            (⟨200, none,
              .json [("status", "silenced"),
                ("alert_group_id", event.alertGroup.id),
                ("silences_created", toString res.1)]⟩, res.2)

/-- Embeds `basicAuth` middleware: wrong or missing credentials yield 401 with a
`WWW-Authenticate: Basic` challenge and the wrapped handler never runs. -/
def basicAuth (h : WebhookHandlerCfg)
    (next : Request → Response × List UpstreamCall) (r : Request) :
    Response × List UpstreamCall :=
  match r.auth with
  | some (u, p) =>
      if u = h.username ∧ p = h.password then next r
      else (⟨401, some "Basic realm=\"Restricted\"", .text "Unauthorized"⟩, [])
  | none => (⟨401, some "Basic realm=\"Restricted\"", .text "Unauthorized"⟩, [])

/-- Embeds `RegisterRoutes` wires `/webhook` to `basicAuth(HandleWebhook)`. -/
def webhookEndpoint (h : WebhookHandlerCfg) (o : WhOracles) (r : Request) :
    Response × List UpstreamCall :=
  basicAuth h (HandleWebhook h o) r

/-- The silence-creation loop attempts every alert in order and counts the
successes. -/
theorem silenceLoop_foldl (o : WhOracles) (event : WebhookEvent)
    (untilTime : String) (l : List (Nat × WhAlert)) (acc : Nat × List UpstreamCall) :
    l.foldl
      (fun acc ia =>
        if exceptOk (o.create ia.1) then
          (acc.1 + 1, acc.2 ++ [createSilenceCall o event untilTime ia.2])
        else
          (acc.1, acc.2 ++ [createSilenceCall o event untilTime ia.2])) acc
      = (acc.1 + l.countP (fun ia => exceptOk (o.create ia.1)),
         acc.2 ++ l.map (fun ia => createSilenceCall o event untilTime ia.2)) := by
  induction l generalizing acc with
  | nil => simp
  | cons ia l ih =>
    rw [List.foldl_cons, ih]
    by_cases hok : exceptOk (o.create ia.1)
    · simp [hok, List.countP_cons]
      omega
    · simp [hok, List.countP_cons]

/-- Closed form of `silenceLoop`: success count and one `CreateSilence` call
per alert. -/
theorem silenceLoop_eq (o : WhOracles) (event : WebhookEvent)
    (untilTime : String) (l : List (Nat × WhAlert)) :
    silenceLoop o event untilTime l
      = (l.countP (fun ia => exceptOk (o.create ia.1)),
         l.map (fun ia => createSilenceCall o event untilTime ia.2)) := by
  unfold silenceLoop
  rw [silenceLoop_foldl]
  simp

/-- Claim C4 counterexample: a GET request with wrong basic credentials is
answered 401, not 405 — the credential check runs before the method check. -/
theorem webhook_method_check_counterexample :
    (webhookEndpoint ⟨"user", "pass", ["admin@co"]⟩
        ⟨fun _ => none, "", fun _ => .error (), fun _ => .error ()⟩
        ⟨"GET", some ("user", "wrong"), none⟩).1.code = 401
    ∧ (webhookEndpoint ⟨"user", "pass", ["admin@co"]⟩
        ⟨fun _ => none, "", fun _ => .error (), fun _ => .error ()⟩
        ⟨"GET", some ("user", "wrong"), none⟩).1.code ≠ 405 := by
  exact ⟨rfl, by decide⟩

/-- Claim C4 (amended): the webhook pre-checks run credential check first,
method check second — any request with missing or wrong basic credentials is
answered 401 with a `WWW-Authenticate: Basic` challenge regardless of method,
and a correctly authenticated non-POST request is answered 405. -/
theorem webhook_auth_before_method (h : WebhookHandlerCfg) (o : WhOracles)
    (r : Request) :
    ((∀ u p, r.auth = some (u, p) → ¬(u = h.username ∧ p = h.password)) →
      r.auth ≠ none →
      webhookEndpoint h o r
        = (⟨401, some "Basic realm=\"Restricted\"", .text "Unauthorized"⟩, []))
    ∧ (r.auth = none →
      webhookEndpoint h o r
        = (⟨401, some "Basic realm=\"Restricted\"", .text "Unauthorized"⟩, []))
    ∧ (r.auth = some (h.username, h.password) → r.method ≠ "POST" →
      webhookEndpoint h o r = (⟨405, none, .text "Method not allowed"⟩, [])) := by
  refine ⟨?_, ?_, ?_⟩
  · intro hbad hsome
    unfold webhookEndpoint basicAuth
    cases hauth : r.auth with
    | none => exact absurd hauth hsome
    | some up =>
      cases up with
      | mk u p =>
        have := hbad u p hauth
        simp [this]
  · intro hnone
    unfold webhookEndpoint basicAuth
    rw [hnone]
  · intro hauth hmeth
    unfold webhookEndpoint basicAuth
    rw [hauth]
    simp only [and_self, if_true]
    unfold HandleWebhook
    simp [hmeth]

/-- Witness for `webhook_auth_before_method`: an authenticated PUT request is
answered 405. -/
theorem webhook_auth_before_method_witness :
    webhookEndpoint ⟨"user", "pass", ["admin@co"]⟩
        ⟨fun _ => none, "", fun _ => .error (), fun _ => .error ()⟩
        ⟨"PUT", some ("user", "pass"), none⟩
      = (⟨405, none, .text "Method not allowed"⟩, []) :=
  (webhook_auth_before_method ⟨"user", "pass", ["admin@co"]⟩
      ⟨fun _ => none, "", fun _ => .error (), fun _ => .error ()⟩
      ⟨"PUT", some ("user", "pass"), none⟩).2.2 rfl (by decide)

/-- Claim C5: for an authenticated silence event from an allow-listed user
with a parseable `until`, one `CreateSilence` attempt is issued per member
alert (failures skip to the next alert), the response is 500 exactly when
zero silences were created, and otherwise 200 with `status:"silenced"` and
the success count. -/
theorem webhook_allowlisted_silence (h : WebhookHandlerCfg) (o : WhOracles)
    (r : Request) (event : WebhookEvent) (untilTime : String)
    (hauth : r.auth = some (h.username, h.password))
    (hm : r.method = "POST")
    (hbody : r.body = some event)
    (htype : event.event.eventType = "silence")
    (hallow : h.allowlist.contains event.user.email = true)
    (huntil : event.event.untilStr ≠ "")
    (hparse : o.parse event.event.untilStr = some untilTime) :
    (webhookEndpoint h o r).2
      = event.alertGroup.alerts.map (fun a => createSilenceCall o event untilTime a)
    ∧ ((webhookEndpoint h o r).1.code = 500
        ↔ event.alertGroup.alerts.enum.countP
            (fun ia => exceptOk (o.create ia.1)) = 0)
    ∧ (event.alertGroup.alerts.enum.countP (fun ia => exceptOk (o.create ia.1)) ≠ 0 →
        (webhookEndpoint h o r).1
          = ⟨200, none,
              .json [("status", "silenced"),
                ("alert_group_id", event.alertGroup.id),
                ("silences_created",
                  toString (event.alertGroup.alerts.enum.countP
                    (fun ia => exceptOk (o.create ia.1))))]⟩) := by
  have hcalls : (webhookEndpoint h o r)
      = (if (event.alertGroup.alerts.enum.countP
              (fun ia => exceptOk (o.create ia.1))) = 0 then
           (⟨500, none, .text "Failed to create any silences"⟩,
            event.alertGroup.alerts.enum.map
              (fun ia => createSilenceCall o event untilTime ia.2))
         else
           (⟨200, none,
             .json [("status", "silenced"),
               ("alert_group_id", event.alertGroup.id),
               ("silences_created",
                 toString (event.alertGroup.alerts.enum.countP
                   (fun ia => exceptOk (o.create ia.1))))]⟩,
            event.alertGroup.alerts.enum.map
              (fun ia => createSilenceCall o event untilTime ia.2))) := by
    unfold webhookEndpoint basicAuth
    rw [hauth]
    simp only [and_self, if_true]
    unfold HandleWebhook
    rw [hm, hbody]
    have hmem : event.user.email ∈ h.allowlist := by simpa using hallow
    simp [htype, huntil, hmem, hparse, silenceLoop_eq]
    rw [silenceLoop_eq]
  have hmap : event.alertGroup.alerts.enum.map
      (fun ia => createSilenceCall o event untilTime ia.2)
      = event.alertGroup.alerts.map
          (fun a => createSilenceCall o event untilTime a) := by
    have h1 : event.alertGroup.alerts.enum.map
        (fun ia => createSilenceCall o event untilTime ia.2)
        = (event.alertGroup.alerts.enum.map Prod.snd).map
            (fun a => createSilenceCall o event untilTime a) := by
      rw [List.map_map]
      rfl
    rw [h1, List.enum_map_snd]
  by_cases hzero : event.alertGroup.alerts.enum.countP
      (fun ia => exceptOk (o.create ia.1)) = 0
  · rw [hcalls]
    simp [hzero, hmap]
  · rw [hcalls]
    simp [hzero, hmap]

/-- Claim C6: for an authenticated silence event from a user not in the
allow-list, exactly one `UnsilenceAlertGroup` call is issued (no
`CreateSilence`), answered 200 with `status:"unsilenced"` on success and 500
on failure. -/
theorem webhook_unallowlisted_unsilence (h : WebhookHandlerCfg) (o : WhOracles)
    (r : Request) (event : WebhookEvent)
    (hauth : r.auth = some (h.username, h.password))
    (hm : r.method = "POST")
    (hbody : r.body = some event)
    (htype : event.event.eventType = "silence")
    (hallow : h.allowlist.contains event.user.email = false) :
    (webhookEndpoint h o r).2 = [.unsilenceAlertGroup event.alertGroup.id]
    ∧ (o.unsilence event.alertGroup.id = .ok () →
        webhookEndpoint h o r
          = (⟨200, none,
              .json [("status", "unsilenced"),
                ("alert_group_id", event.alertGroup.id)]⟩,
             [.unsilenceAlertGroup event.alertGroup.id]))
    ∧ (∀ err, o.unsilence event.alertGroup.id = .error err →
        (webhookEndpoint h o r).1.code = 500) := by
  have hpre : webhookEndpoint h o r
      = (match o.unsilence event.alertGroup.id with
         | .error _ =>
             (⟨500, none, .text "Failed to unsilence alert"⟩,
              [UpstreamCall.unsilenceAlertGroup event.alertGroup.id])
         | .ok _ =>
             (⟨200, none,
               RespBody.json [("status", "unsilenced"),
                 ("alert_group_id", event.alertGroup.id)]⟩,
              [UpstreamCall.unsilenceAlertGroup event.alertGroup.id])) := by
    unfold webhookEndpoint basicAuth
    rw [hauth]
    simp only [and_self, if_true]
    unfold HandleWebhook
    rw [hm, hbody]
    have hno : event.user.email ∉ h.allowlist := by simpa using hallow
    simp [htype, hno]
  refine ⟨?_, ?_, ?_⟩
  · rw [hpre]
    cases o.unsilence event.alertGroup.id <;> rfl
  · intro hok
    rw [hpre, hok]
  · intro err herr
    rw [hpre, herr]

/-- Webhook configuration used by the concrete witnesses. -/
def whCfgW : WebhookHandlerCfg := ⟨"user", "pass", ["admin@co"]⟩

/-- A silence event from an allow-listed user with two member alerts. -/
def whEventW : WebhookEvent :=
  ⟨⟨"silence", "2030-01-01T00:00:00Z"⟩, ⟨"admin@co"⟩,
   ⟨"ag1", "Title", ⟨"http://link"⟩,
    [⟨[("alertname", "X")], "fp1"⟩, ⟨[("severity", "warn")], "fp2"⟩]⟩⟩

/-- The same silence event from a user outside the allow-list. -/
def whEventStrangerW : WebhookEvent :=
  ⟨⟨"silence", "2030-01-01T00:00:00Z"⟩, ⟨"stranger@co"⟩,
   ⟨"ag1", "Title", ⟨"http://link"⟩, [⟨[("alertname", "X")], "fp1"⟩]⟩⟩

/-- Oracles where `until` parses, unsilence succeeds, and only the first
`CreateSilence` succeeds. -/
def whOraclesOkW : WhOracles :=
  ⟨fun s => if s = "2030-01-01T00:00:00Z" then some s else none,
   "2026-01-01T00:00:00Z", fun _ => .ok (),
   fun i => if i = 0 then .ok "sid0" else .error ()⟩

/-- Witness for `webhook_allowlisted_silence`: two member alerts, one
creation success, response 200 with `silences_created = "1"`. -/
theorem webhook_allowlisted_silence_witness :
    (webhookEndpoint whCfgW whOraclesOkW
        ⟨"POST", some ("user", "pass"), some whEventW⟩).1
      = ⟨200, none,
          .json [("status", "silenced"), ("alert_group_id", "ag1"),
            ("silences_created", "1")]⟩ := by
  have h := (webhook_allowlisted_silence whCfgW whOraclesOkW
      ⟨"POST", some ("user", "pass"), some whEventW⟩ whEventW
      "2030-01-01T00:00:00Z" rfl rfl rfl rfl (by decide) (by decide)
      (by decide)).2.2 (by decide)
  rw [h]
  decide

/-- Witness for `webhook_unallowlisted_unsilence`: a stranger's silence event
triggers exactly one successful unsilence call. -/
theorem webhook_unallowlisted_unsilence_witness :
    webhookEndpoint whCfgW whOraclesOkW
        ⟨"POST", some ("user", "pass"), some whEventStrangerW⟩
      = (⟨200, none,
          .json [("status", "unsilenced"), ("alert_group_id", "ag1")]⟩,
         [.unsilenceAlertGroup "ag1"]) :=
  (webhook_unallowlisted_unsilence whCfgW whOraclesOkW
      ⟨"POST", some ("user", "pass"), some whEventStrangerW⟩ whEventStrangerW
      rfl rfl rfl rfl (by decide)).2.1 rfl

/-! ## The two caches (internal/alertmanager/client.go, internal/grafana/client.go)

Each cache is an association list threaded through the operation together
with the number of upstream fetches the call performed (0 or 1); the
upstream HTTP call is an oracle `String → Except Unit _`. -/

/-- Embeds `models.GettableSilence`, restricted to the fields the core reads: the id
and the optional `CreatedBy`. -/
structure GettableSilence where
  id : String
  createdBy : Option String
deriving DecidableEq, Repr

/-- Embeds `grafana.User`, restricted to the fields the core reads. -/
structure User where
  id : String
  email : String
deriving DecidableEq, Repr

/-- Lookup in a Go map modeled as an association list. -/
def cacheLookup {α : Type} (cache : List (String × α)) (k : String) : Option α :=
  (cache.find? (fun p => p.1 == k)).map Prod.snd

/-- Storing under a key absent from the cache makes it the lookup result. -/
theorem cacheLookup_append_self {α : Type} (c : List (String × α)) (id : String)
    (s : α) (h : cacheLookup c id = none) :
    cacheLookup (c ++ [(id, s)]) id = some s := by
  unfold cacheLookup at h ⊢
  rw [List.find?_append]
  have hf : c.find? (fun p => p.1 == id) = none := by
    cases hc : c.find? (fun p => p.1 == id) with
    | none => rfl
    | some p => rw [hc] at h; cases h
  rw [hf]
  simp

/-- Embeds `alertmanager.Client.GetSilence`: blank id short-circuits, a cache hit
returns the stored silence with no fetch, a miss fetches — storing only on
success. Returns the result, the new cache, and the fetch count. -/
def GetSilence (fetch : String → Except Unit GettableSilence)
    (cache : List (String × GettableSilence)) (silenceID : String) :
    Except Unit (Option GettableSilence) × List (String × GettableSilence) × Nat :=
  if silenceID = "" then (.ok none, cache, 0)
  else
    match cacheLookup cache silenceID with
    | some s => (.ok (some s), cache, 0)
    | none =>
      match fetch silenceID with
      | .error e => (.error e, cache, 1)
      | .ok s => (.ok (some s), cache ++ [(silenceID, s)], 1)

/-- Embeds `alertmanager.Client.GetSilenceAuthor`: any error or absent silence
collapses to the empty string, otherwise the silence's `CreatedBy` (empty
when nil). -/
def GetSilenceAuthor (fetch : String → Except Unit GettableSilence)
    (cache : List (String × GettableSilence)) (silenceID : String) :
    String × List (String × GettableSilence) × Nat :=
  match GetSilence fetch cache silenceID with
  | (.error _, c, n) => ("", c, n)
  | (.ok none, c, n) => ("", c, n)
  | (.ok (some s), c, n) => (s.createdBy.getD "", c, n)

/-- Embeds `grafana.Client.GetUser`: same cache discipline as `GetSilence` on the
user-email cache. -/
def GetUser (fetch : String → Except Unit User)
    (cache : List (String × User)) (userID : String) :
    Except Unit (Option User) × List (String × User) × Nat :=
  if userID = "" then (.ok none, cache, 0)
  else
    match cacheLookup cache userID with
    | some u => (.ok (some u), cache, 0)
    | none =>
      match fetch userID with
      | .error e => (.error e, cache, 1)
      | .ok u => (.ok (some u), cache ++ [(userID, u)], 1)

/-- Embeds `grafana.Client.GetUserEmail`: any failure or absent user collapses to
the empty string. -/
def GetUserEmail (fetch : String → Except Unit User)
    (cache : List (String × User)) (userID : String) :
    String × List (String × User) × Nat :=
  match GetUser fetch cache userID with
  | (.error _, c, n) => ("", c, n)
  | (.ok none, c, n) => ("", c, n)
  | (.ok (some u), c, n) => (u.email, c, n)

/-- Claim C8 counterexample: with an upstream that fails, two consecutive
`GetSilence` calls on the same non-empty id perform two upstream fetches —
the failure is not cached, so the claimed "at most one upstream fetch in
total" does not hold as stated. -/
theorem cache_round_trip_counterexample :
    (GetSilence (fun _ => .error ()) [] "s1").2.2
      + (GetSilence (fun _ => .error ())
          (GetSilence (fun _ => .error ()) [] "s1").2.1 "s1").2.2 = 2 := rfl

/-- Claim C8 (amended): for a non-empty id, when the first call does not end
in an upstream error, `GetSilence` followed by `GetSilence` performs at most
one fetch in total — the first call fetched and stored at most once and the
second returns the stored value with zero fetches; a failed first call
leaves the cache unchanged (failures are never stored), so the round-trip
bound applies only to non-failing lookups. The same law holds for `GetUser`
on the user-email cache. -/
theorem cache_round_trip_amended (fs : String → Except Unit GettableSilence)
    (c : List (String × GettableSilence)) (fu : String → Except Unit User)
    (cu : List (String × User)) (id : String) (hid : id ≠ "") :
    (∀ v c1 n1, GetSilence fs c id = (v, c1, n1) →
      ((∃ e, v = .error e) → c1 = c)
      ∧ (∀ s, v = .ok s → GetSilence fs c1 id = (.ok s, c1, 0) ∧ n1 ≤ 1))
    ∧ (∀ v c1 n1, GetUser fu cu id = (v, c1, n1) →
      ((∃ e, v = .error e) → c1 = cu)
      ∧ (∀ s, v = .ok s → GetUser fu c1 id = (.ok s, c1, 0) ∧ n1 ≤ 1)) := by
  constructor
  · intro v c1 n1 heq
    unfold GetSilence at heq
    rw [if_neg hid] at heq
    cases hl : cacheLookup c id with
    | some s0 =>
      rw [hl] at heq
      cases heq
      refine ⟨fun _ => rfl, fun s hs => ?_⟩
      cases hs
      constructor
      · unfold GetSilence
        rw [if_neg hid, hl]
      · exact Nat.zero_le 1
    | none =>
      rw [hl] at heq
      cases hf : fs id with
      | error e =>
        rw [hf] at heq
        cases heq
        refine ⟨fun _ => rfl, fun s hs => ?_⟩
        cases hs
      | ok s0 =>
        rw [hf] at heq
        cases heq
        refine ⟨?_, fun s hs => ?_⟩
        · rintro ⟨e, he⟩
          cases he
        · cases hs
          constructor
          · unfold GetSilence
            rw [if_neg hid, cacheLookup_append_self c id s0 hl]
          · exact Nat.le_refl 1
  · intro v c1 n1 heq
    unfold GetUser at heq
    rw [if_neg hid] at heq
    cases hl : cacheLookup cu id with
    | some u0 =>
      rw [hl] at heq
      cases heq
      refine ⟨fun _ => rfl, fun s hs => ?_⟩
      cases hs
      constructor
      · unfold GetUser
        rw [if_neg hid, hl]
      · exact Nat.zero_le 1
    | none =>
      rw [hl] at heq
      cases hf : fu id with
      | error e =>
        rw [hf] at heq
        cases heq
        refine ⟨fun _ => rfl, fun s hs => ?_⟩
        cases hs
      | ok u0 =>
        rw [hf] at heq
        cases heq
        refine ⟨?_, fun s hs => ?_⟩
        · rintro ⟨e, he⟩
          cases he
        · cases hs
          constructor
          · unfold GetUser
            rw [if_neg hid, cacheLookup_append_self cu id u0 hl]
          · exact Nat.le_refl 1

/-- Witness for `cache_round_trip_amended`: after a successful first miss the
second call is served from the cache with zero fetches, on both caches. -/
theorem cache_round_trip_amended_witness :
    GetSilence (fun i => .ok ⟨i, some "alice"⟩) [("s1", ⟨"s1", some "alice"⟩)] "s1"
      = (.ok (some ⟨"s1", some "alice"⟩), [("s1", ⟨"s1", some "alice"⟩)], 0)
    ∧ GetUser (fun i => .ok ⟨i, "bob@example.com"⟩)
        [("u1", ⟨"u1", "bob@example.com"⟩)] "u1"
      = (.ok (some ⟨"u1", "bob@example.com"⟩), [("u1", ⟨"u1", "bob@example.com"⟩)], 0) :=
  ⟨(((cache_round_trip_amended (fun i => .ok ⟨i, some "alice"⟩) []
        (fun i => .ok ⟨i, "bob@example.com"⟩) [] "s1" (by decide)).1
      (.ok (some ⟨"s1", some "alice"⟩)) [("s1", ⟨"s1", some "alice"⟩)] 1 rfl).2
      (some ⟨"s1", some "alice"⟩) rfl).1,
   (((cache_round_trip_amended (fun i => .ok ⟨i, some "alice"⟩) []
        (fun i => .ok ⟨i, "bob@example.com"⟩) [] "u1" (by decide)).2
      (.ok (some ⟨"u1", "bob@example.com"⟩)) [("u1", ⟨"u1", "bob@example.com"⟩)] 1 rfl).2
      (some ⟨"u1", "bob@example.com"⟩) rfl).1⟩

/-- Claim C9: the blank-id short-circuits — `GetSilence` and `GetUser` return
the absent value without error, with no upstream fetch and no cache write,
and `GetSilenceAuthor` collapses that to the empty string. -/
theorem blank_id_short_circuit (fs : String → Except Unit GettableSilence)
    (c : List (String × GettableSilence)) (fu : String → Except Unit User)
    (cu : List (String × User)) :
    GetSilenceAuthor fs c "" = ("", c, 0)
    ∧ GetSilence fs c "" = (.ok none, c, 0)
    ∧ GetUser fu cu "" = (.ok none, cu, 0) :=
  ⟨rfl, rfl, rfl⟩

end AlertSync
